import Mathlib

/-!
Shallow embedding of the EtherNet/IP + CIP explicit-messaging client in
`src/examples/smart_instrumentation/component.py` (classes `EnipClient`,
`CIPPath`, `CIPClient`, `PromassAssemblies`).

Byte strings are modelled as `List Nat`, every element meant as a byte
(0..255).  Python exceptions are modelled as an explicit error type with
one constructor per raise site of the source, together with the Python
exception class of each raise site, so that statements can distinguish
"which exception object" from "which exception class".
-/

/-- The Python exception class an error belongs to in the source:
`EnipError`, `CIPError` (both defined in component.py), `struct.error`
(raised by `struct.pack`/`struct.unpack`) and builtin `ValueError`. -/
inductive PyClass where
  | enipErrorClass
  | cipErrorClass
  | structErrorClass
  | valueErrorClass
deriving DecidableEq, Repr

/-- One constructor per raise site in component.py, carrying the data that
the source interpolates into the exception message. -/
inductive Err where
  /-- Python `EnipError("Socket closed while receiving")`, line 121. -/
  | socketClosed
  /-- Python `EnipError("Short ENIP header")`, line 150 (dead: `_recv_exact` already
  guarantees 24 bytes). -/
  | shortHeader
  /-- Python `EnipError("Socket not connected")`, line 127. -/
  | notConnected
  /-- Python `EnipError(f"RegisterSession failed with status {{..}}")`, line 173. -/
  | registerFailed (status : Nat)
  /-- Python `EnipError("RegisterSession response too short")`, line 175. -/
  | registerRespTooShort
  /-- Python `EnipError(f"SendRRData failed with status {{..}}")`, line 221. -/
  | sendRRStatus (status : Nat)
  /-- Python `EnipError("SendRRData response too short")`, line 225. -/
  | sendRRRespTooShort
  /-- Python `EnipError("No CIP reply item in SendRRData response")`, line 238. -/
  | noCIPReplyItem
  /-- Python `CIPError("CIP response too short")`, line 309. -/
  | cipRespTooShort
  /-- Python `CIPError(f"Unexpected CIP service in response: ..")`, line 314. -/
  | cipUnexpectedService (respService : Nat)
  /-- Python `CIPError(f"CIP error: general_status=.., additional=..")`, line 327. -/
  | cipStatus (status : Nat) (additional : List Nat)
  /-- Python `struct.error` escaping from `struct.unpack` / `struct.pack` on a
  buffer/value of the wrong size (not caught anywhere in the source). -/
  | structUnpackError
  /-- builtin `ValueError(msg)` (raised by `CIPPath.encode` line 273 and
  `PromassAssemblies.parse_input_assembly` line 369). -/
  | valueError (msg : String)
deriving DecidableEq, Repr

/-- The Python exception class of each raise site. -/
def Err.pyClass : Err → PyClass
  | socketClosed | shortHeader | notConnected | registerFailed _
  | registerRespTooShort | sendRRStatus _ | sendRRRespTooShort
  | noCIPReplyItem => .enipErrorClass
  | cipRespTooShort | cipUnexpectedService _ | cipStatus _ _ => .cipErrorClass
  | structUnpackError => .structErrorClass
  | valueError _ => .valueErrorClass

-- --- little-endian byte helpers (struct "<H" / "<I") ------------------------

/-- Decode the first two bytes of `bs` as a little-endian 16-bit word
(`struct.unpack("<H", ..)`). -/
def le16word (bs : List Nat) : Nat := bs.getD 0 0 + 256 * bs.getD 1 0

/-- Decode the first four bytes of `bs` as a little-endian 32-bit word
(`struct.unpack("<I", ..)`). -/
def le32word (bs : List Nat) : Nat :=
  bs.getD 0 0 + 256 * (bs.getD 1 0 + 256 * (bs.getD 2 0 + 256 * bs.getD 3 0))

/-- Python `struct.unpack("<" + "H" * k, raw)` after the length of `raw` has been
checked: consecutive pairs of bytes become little-endian 16-bit words. -/
def leWords : List Nat → List Nat
  | lo :: hi :: rest => (lo + 256 * hi) :: leWords rest
  | _ => []

-- --- CIPPath (component.py lines 244-285) -----------------------------------

/-- Python `CIPPath.__init__`: each of class/instance/attribute is optional; values
are Python ints, hence `Int` (they may be negative). -/
structure CIPPath where
  class_id : Option Int
  instance_id : Option Int
  attribute_id : Option Int
deriving DecidableEq, Repr

/-- The inner `seg(seg_type, value)` of `CIPPath.encode` (lines 269-276):
range check, then 2-byte form `[seg_type, value]` for values below 256,
else 4-byte form `struct.pack("<BBH", seg_type + 1, 0, value)`. -/
def seg (segType : Nat) (value : Int) : Except Err (List Nat) :=
  if value < 0 ∨ value > 0xFFFF then .error (.valueError "EPATH segment out of range")
  else if value < 256 then .ok [segType, value.toNat]
  else .ok [segType + 1, 0, value.toNat % 256, value.toNat / 256]

/-- One optional segment of `CIPPath.encode`: `if <field> is not None:
path += seg(<base>, <field>)` — nothing emitted when absent. -/
def segOpt (segType : Nat) : Option Int → Except Err (List Nat)
  | none => .ok []
  | some v => seg segType v

/-- Python `CIPPath.encode` (lines 260-285): class, instance, attribute segments in
that fixed order, each emitted only when present; the first failing segment
aborts the whole encoding (Python exception propagation). -/
def CIPPath.encode (p : CIPPath) : Except Err (List Nat) :=
  (segOpt 0x20 p.class_id).bind fun b1 =>
  (segOpt 0x24 p.instance_id).bind fun b2 =>
  (segOpt 0x30 p.attribute_id).bind fun b3 =>
  .ok (b1 ++ b2 ++ b3)

/-- Modelled from the claim wording of C4 (spec section 4.3), for the
refinement theorem: 2-byte form for `0 ≤ v < 256`, 4-byte form
`[seg_type + 1, 0x00, lo, hi]` for `256 ≤ v ≤ 0xFFFF`, error otherwise. -/
def claimSeg (segType : Nat) : Option Int → Except Err (List Nat)
  | none => .ok []
  | some v =>
    if 0 ≤ v ∧ v < 256 then .ok [segType, v.toNat]
    else if 256 ≤ v ∧ v ≤ 0xFFFF then
      .ok [segType + 1, 0, v.toNat % 256, v.toNat / 256]
    else .error (.valueError "EPATH segment out of range")

-- --- CIP request/response (component.py lines 297-331) ----------------------

/-- Request building part of `CIPClient._send_cip` (lines 297-305): encode the
path, pad to even length if needed, prepend service byte and path size in
16-bit words, append the request data. -/
def buildCIPRequest (service : Nat) (p : CIPPath) (data : List Nat) :
    Except Err (List Nat) :=
  p.encode.bind fun pb =>
    let pb2 := if pb.length % 2 ≠ 0 then pb ++ [0] else pb
    .ok ([service, pb2.length / 2] ++ pb2 ++ data)

/-- Response handling part of `CIPClient._send_cip` (lines 308-331), applied
to the raw CIP reply bytes `resp`:
length check; `resp[0]` must equal `service | 0x80`; `resp[2]` is the general
status and `resp[3]` the additional-status word count; on non-zero general
status, `struct.unpack("<" + "H" * k, resp[4:4+2*k])` (which raises
`struct.error` when the clamped slice is shorter than `2*k`) feeds a
`CIPError`; on zero status, return `resp[offset:]`. -/
def parseCIPResponse (service : Nat) (resp : List Nat) : Except Err (List Nat) :=
  if resp.length < 4 then .error .cipRespTooShort
  else
    let respService := resp.getD 0 0
    if respService ≠ (service ||| 0x80) then
      .error (.cipUnexpectedService respService)
    else
      let genStatus := resp.getD 2 0
      let addStatSize := resp.getD 3 0
      let offset := 4 + addStatSize * 2
      if genStatus ≠ 0 then
        if addStatSize ≠ 0 then
          let addRaw := (resp.drop 4).take (addStatSize * 2)
          if addRaw.length = addStatSize * 2 then
            .error (.cipStatus genStatus (leWords addRaw))
          else .error .structUnpackError
        else .error (.cipStatus genStatus [])
      else .ok (resp.drop offset)

-- --- exact receive loop (component.py lines 116-123) ------------------------

/-- The `while` loop of `EnipClient._recv_exact`.  The incoming TCP stream is
modelled as the list of chunks successive `sock.recv` calls deliver; an empty
chunk, or running out of chunks, is the peer closing the connection.
`recv(n - len(buf))` returns at most the requested count, so a chunk longer
than the remaining need is split and its tail stays buffered for later calls.
Returns the accumulated buffer and the unconsumed rest of the stream. -/
def recvLoop (n : Nat) (buf : List Nat) (chunks : List (List Nat)) :
    Except Err (List Nat × List (List Nat)) :=
  if h : buf.length < n then
    match chunks with
    | [] => .error .socketClosed
    | c :: rest =>
      if hc : c = [] then .error .socketClosed
      else
        let k := min c.length (n - buf.length)
        recvLoop n (buf ++ c.take k)
          (if c.length ≤ k then rest else c.drop k :: rest)
  else .ok (buf, chunks)
termination_by n - buf.length
decreasing_by
  have hcpos : 0 < c.length := List.length_pos.mpr hc
  simp only [List.length_append, List.length_take]
  omega

/-- Python `EnipClient._recv_exact(n)` on a given incoming stream. -/
def recvExact (n : Nat) (chunks : List (List Nat)) :
    Except Err (List Nat × List (List Nat)) :=
  recvLoop n [] chunks

-- --- encapsulation frames (component.py lines 125-165) ----------------------

/-- Python `EnipResponse` dataclass (lines 61-68). -/
structure EnipResponse where
  command : Nat
  status : Nat
  session_handle : Nat
  sender_context : List Nat
  options : Nat
  data : List Nat
deriving DecidableEq, Repr

/-- Python `struct.unpack("<HHII8sI", hdr)` on the 24-byte encapsulation header
(line 152): command, length, session handle, status, sender context,
options. -/
def parseEnipHeader (h : List Nat) : Nat × Nat × Nat × Nat × List Nat × Nat :=
  (le16word (h.take 2), le16word ((h.drop 2).take 2),
   le32word ((h.drop 4).take 4), le32word ((h.drop 8).take 4),
   (h.drop 12).take 8, le32word ((h.drop 20).take 4))

/-- The receive half of `EnipClient._send_enip` (lines 147-165): read exactly
24 header bytes (the `len(hdr) != 24` re-check on line 149 is kept although
`_recv_exact` makes it dead), unpack the header, then read exactly `r_length`
payload bytes. -/
def recvEnipResponse (chunks : List (List Nat)) : Except Err EnipResponse := do
  let (hdr, rest) ← recvExact 24 chunks
  if hdr.length ≠ 24 then .error .shortHeader
  else
    let (cmd, rlen, sess, status, ctx, opts) := parseEnipHeader hdr
    let (payload, _) ← recvExact rlen rest
    pure ⟨cmd, status, sess, ctx, opts, payload⟩

-- --- SendRRData (component.py lines 187-239) --------------------------------

/-- The request payload built by `EnipClient.send_rr_data` (lines 197-217):
`struct.pack("<IHHHHH", 0, 0, 2, 0x0000, 0, 0x00B2) + struct.pack("<H",
len(cip)) + cip`.  `struct.pack("<H", ..)` raises `struct.error` when the
payload length exceeds 0xFFFF. -/
def sendRRDataPayload (cip : List Nat) : Except Err (List Nat) :=
  if cip.length > 0xFFFF then .error .structUnpackError
  else .ok ([0, 0, 0, 0, 0, 0, 2, 0, 0, 0, 0, 0, 0xB2, 0]
       ++ [cip.length % 256, cip.length / 256] ++ cip)

/-- The CPF item loop of `EnipClient.send_rr_data` (lines 230-236):
`struct.unpack("<HH", data[offset:offset+4])` (raising `struct.error` when
the clamped slice is shorter than 4), then the item payload of the declared
length; offset advances past it; the accumulator keeps the payload of the
last item of type 0x00B2 ("last wins"). -/
def cpfItems (d : List Nat) : Nat → Nat → List Nat → Except Err (List Nat)
  | _, 0, acc => .ok acc
  | offset, n + 1, acc =>
    let hdr := (d.drop offset).take 4
    if hdr.length = 4 then
      let itemId := le16word (hdr.take 2)
      let itemLen := le16word (hdr.drop 2)
      let itemData := (d.drop (offset + 4)).take itemLen
      cpfItems d (offset + 4 + itemLen) n (if itemId = 0xB2 then itemData else acc)
    else .error .structUnpackError

/-- The response handling of `EnipClient.send_rr_data` (lines 219-239), as a
function of the encapsulation status and payload of the `EnipResponse`:
status check, minimum length 10, item count from bytes 6..8, CPF item loop
starting at offset 8, and the final `if not cip_reply` test — which is
Python falsiness of the accumulated bytes, so it fires both when no 0x00B2
item was seen and when the last one had an empty payload. -/
def parseSendRRData (status : Nat) (d : List Nat) : Except Err (List Nat) :=
  if status ≠ 0 then .error (.sendRRStatus status)
  else if d.length < 10 then .error .sendRRRespTooShort
  else do
    let itemCount := le16word ((d.drop 6).take 2)
    let cip ← cpfItems d 8 itemCount []
    if cip = [] then .error .noCIPReplyItem else .ok cip

-- --- session state machine (component.py lines 85-104, 169-180) -------------

/-- The session-relevant mutable state of `EnipClient`: `self.session_handle`
and whether `self.sock` is not `None`. -/
structure EnipState where
  session_handle : Nat
  sockOpen : Bool
deriving DecidableEq, Repr

/-- Result of one mutating `EnipClient` method call: the final state, the
exception propagated to the caller (if any; mutations made before the raise
persist, as in Python), and the trace of `(command, payload)` encapsulation
frames the method wrote to the socket. -/
structure StepResult where
  state : EnipState
  err : Option Err
  sent : List (Nat × List Nat)
deriving DecidableEq, Repr

/-- Python `RegisterSession` request payload `struct.pack("<HH", 1, 0)` (line 170). -/
def registerPayload : List Nat := [1, 0, 0, 0]

/-- Python `EnipClient.connect` (lines 85-92) followed by `_register_session`
(lines 169-176).  The outcome of the `_send_enip(0x0065, ..)` exchange is a
parameter `exch` (the response from the peer, or the transport error the exchange
raised).  If a socket is already held, return immediately without any
exchange.  Otherwise the socket is opened and stored *before* registration;
a registration failure propagates with `self.sock` still set. -/
def connectT (st : EnipState) (exch : Except Err EnipResponse) : StepResult :=
  if st.sockOpen then ⟨st, none, []⟩
  else
    let st1 : EnipState := { st with sockOpen := true }
    match exch with
    | .error e => ⟨st1, some e, [(0x65, registerPayload)]⟩
    | .ok resp =>
      if resp.status ≠ 0 then
        ⟨st1, some (.registerFailed resp.status), [(0x65, registerPayload)]⟩
      else if resp.data.length < 4 then
        ⟨st1, some .registerRespTooShort, [(0x65, registerPayload)]⟩
      else
        ⟨{ st1 with session_handle := le32word (resp.data.take 4) }, none,
          [(0x65, registerPayload)]⟩

/-- Python `EnipClient.close` (lines 94-104).  `try: if self.session_handle:
self._unregister_session() finally: ...` — note `try`/`finally` runs the
cleanup and then *re-raises* any exception from the unregister exchange.
`_unregister_session` (lines 178-180) sends an `UnregisterSession` frame,
ignores the response, and zeroes the handle only if the exchange succeeded.
The `finally` block closes the socket and clears both fields, but only when
a socket is held. -/
def closeT (st : EnipState) (exch : Except Err EnipResponse) : StepResult :=
  let inner : EnipState × Option Err × List (Nat × List Nat) :=
    if st.session_handle ≠ 0 then
      match exch with
      | .error e => (st, some e, [(0x66, [])])
      | .ok _ => ({ st with session_handle := 0 }, none, [(0x66, [])])
    else (st, none, [])
  let (stA, errA, sentA) := inner
  if stA.sockOpen then
    ⟨{ stA with sockOpen := false, session_handle := 0 }, errA, sentA⟩
  else ⟨stA, errA, sentA⟩

-- --- input assembly decode (component.py lines 363-381) ---------------------

/-- The result of `PromassAssemblies.parse_input_assembly`.  The source
returns four Python floats obtained from `struct.unpack("<ffff", data[:16])`;
the decode is pure byte transport, so each field is kept as the IEEE-754
binary32 bit pattern of the corresponding little-endian 4-byte group. -/
structure ProcessValueFrame where
  mass_flow : Nat
  volume_flow : Nat
  density : Nat
  temperature : Nat
deriving DecidableEq, Repr

/-- Python `PromassAssemblies.parse_input_assembly` (lines 363-381):
`struct.calcsize("<ffff") = 16`; shorter data raises
`ValueError("Input assembly data too short")`; otherwise the first 16 bytes
decode as four little-endian 32-bit floats in the fixed order mass flow,
volume flow, density, temperature, and any further bytes are ignored. -/
def parse_input_assembly (data : List Nat) : Except Err ProcessValueFrame :=
  if data.length < 16 then .error (.valueError "Input assembly data too short")
  else .ok
    { mass_flow := le32word (data.take 4)
      volume_flow := le32word ((data.drop 4).take 4)
      density := le32word ((data.drop 8).take 4)
      temperature := le32word ((data.drop 12).take 4) }

/-- EPATH encoding as claim C4 words it, segment by segment, to be compared
with `CIPPath.encode` from the source. -/
def claimEncode (c i a : Option Int) : Except Err (List Nat) :=
  (claimSeg 0x20 c).bind fun b1 =>
  (claimSeg 0x24 i).bind fun b2 =>
  (claimSeg 0x30 a).bind fun b3 =>
  .ok (b1 ++ b2 ++ b3)

-- ============================ theorems ======================================

theorem claimSeg_eq_seg (t : Nat) (v : Int) : claimSeg t (some v) = seg t v := by
  simp only [claimSeg, seg]
  split_ifs <;> first | rfl | omega

theorem claimSeg_none (t : Nat) : claimSeg t none = Except.ok [] := rfl

theorem seg_ok_length (t : Nat) (v : Int) (l : List Nat) (h : seg t v = .ok l) :
    l.length = 2 ∨ l.length = 4 := by
  unfold seg at h
  split_ifs at h
  · injection h with h
    subst h
    simp
  · injection h with h
    subst h
    simp

/-- Claim C4: `CIPPath.encode` of the source agrees, on every path, with the
encoding the claim describes: for each of class, instance, attribute that is
present, in that fixed order, the 2 bytes `[segment_type, value]` when
`0 ≤ value < 256` and the 4 bytes `[segment_type + 1, 0x00, lo, hi]`
(little-endian) when `256 ≤ value ≤ 0xFFFF`, with bases class = 0x20,
instance = 0x24, attribute = 0x30, and an error for any present value
outside `[0, 0xFFFF]`. -/
theorem epath_encode_spec_agreement (c i a : Option Int) :
    CIPPath.encode ⟨c, i, a⟩ = claimEncode c i a := by
  unfold CIPPath.encode claimEncode
  rcases c with _ | v1 <;> rcases i with _ | v2 <;> rcases a with _ | v3 <;>
    simp only [segOpt, claimSeg_eq_seg, claimSeg_none]

theorem okBind {α β : Type} (x : α) (f : α → Except Err β) :
    (Except.ok x >>= f) = f x := rfl

theorem errorBind {α β : Type} (e : Err) (f : α → Except Err β) :
    ((Except.error e : Except Err α) >>= f) = .error e := rfl

theorem segOpt_ok_even (t : Nat) (o : Option Int) (b : List Nat)
    (h : segOpt t o = .ok b) : b.length % 2 = 0 := by
  cases o with
  | none =>
    simp only [segOpt, Except.ok.injEq] at h
    subst h
    rfl
  | some v =>
    simp only [segOpt] at h
    rcases seg_ok_length t v b h with h2 | h2 <;> omega

theorem bindChain_ok_even (m1 m2 m3 : Except Err (List Nat)) (bytes : List Nat)
    (h : (m1.bind fun b1 => m2.bind fun b2 => m3.bind fun b3 =>
            .ok (b1 ++ b2 ++ b3)) = .ok bytes)
    (e1 : ∀ b, m1 = .ok b → b.length % 2 = 0)
    (e2 : ∀ b, m2 = .ok b → b.length % 2 = 0)
    (e3 : ∀ b, m3 = .ok b → b.length % 2 = 0) :
    bytes.length % 2 = 0 := by
  cases m1 with
  | error e => simp [Except.bind] at h
  | ok b1 =>
    cases m2 with
    | error e => simp [Except.bind] at h
    | ok b2 =>
      cases m3 with
      | error e => simp [Except.bind] at h
      | ok b3 =>
        simp only [Except.bind, Except.ok.injEq] at h
        subst h
        have h1 := e1 b1 rfl
        have h2 := e2 b2 rfl
        have h3 := e3 b3 rfl
        simp only [List.length_append]
        omega

theorem encode_ok_even (p : CIPPath) (bytes : List Nat)
    (h : p.encode = .ok bytes) : bytes.length % 2 = 0 := by
  unfold CIPPath.encode at h
  exact bindChain_ok_even _ _ _ bytes h
    (segOpt_ok_even 0x20 p.class_id) (segOpt_ok_even 0x24 p.instance_id)
    (segOpt_ok_even 0x30 p.attribute_id)

/-- Claim C10: whenever `CIPPath.encode` succeeds, the EPATH byte string has
even length (each present segment contributes 2 or 4 bytes), so the
odd-length padding branch of `CIPClient._send_cip` is unreachable and the
path size in 16-bit words is exactly half the EPATH byte length. -/
theorem epath_even_length_no_padding (p : CIPPath) (bytes : List Nat)
    (h : p.encode = .ok bytes) :
    bytes.length % 2 = 0 ∧
    (if bytes.length % 2 ≠ 0 then bytes ++ [0] else bytes) = bytes ∧
    ∀ service data, buildCIPRequest service p data =
      .ok ([service, bytes.length / 2] ++ bytes ++ data) := by
  have he := encode_ok_even p bytes h
  refine ⟨he, by simp [he], ?_⟩
  intro service data
  unfold buildCIPRequest
  rw [h]
  simp [Except.bind, he]

theorem epath_even_length_no_padding_witness :
    ([0x20, 4, 0x24, 100, 0x30, 3] : List Nat).length % 2 = 0 ∧
    buildCIPRequest 0x0E ⟨some 4, some 100, some 3⟩ [] =
      .ok ([0x0E, 3] ++ [0x20, 4, 0x24, 100, 0x30, 3] ++ []) :=
  ⟨(epath_even_length_no_padding ⟨some 4, some 100, some 3⟩
      [0x20, 4, 0x24, 100, 0x30, 3] rfl).1,
   (epath_even_length_no_padding ⟨some 4, some 100, some 3⟩
      [0x20, 4, 0x24, 100, 0x30, 3] rfl).2.2 0x0E []⟩

/-- Claim C9: `parse_input_assembly` succeeds exactly when the data has at
least 16 bytes; on success the four fields are the four little-endian 32-bit
(IEEE-754 binary32) groups of the first 16 bytes in the fixed order mass
flow, volume flow, density, temperature, bytes beyond the 16th being
ignored; shorter data fails with the length `ValueError`. -/
theorem parse_input_assembly_correct (data : List Nat) :
    (data.length < 16 →
      parse_input_assembly data =
        .error (.valueError "Input assembly data too short")) ∧
    (16 ≤ data.length →
      parse_input_assembly data =
        .ok ⟨le32word (data.take 4), le32word ((data.drop 4).take 4),
             le32word ((data.drop 8).take 4), le32word ((data.drop 12).take 4)⟩ ∧
      parse_input_assembly data = parse_input_assembly (data.take 16)) := by
  constructor
  · intro h
    simp [parse_input_assembly, h]
  · intro h
    have hnl : ¬ data.length < 16 := by omega
    constructor
    · simp [parse_input_assembly, hnl]
    · have htl : ¬ (data.take 16).length < 16 := by
        simp [List.length_take]
        omega
      simp [parse_input_assembly, hnl, htl, List.take_take, List.drop_take]

theorem parse_input_assembly_correct_witness :
    parse_input_assembly [0, 0, 0, 0, 0, 0, 0, 0, 0, 0, 0, 0, 0, 0, 0] =
      .error (.valueError "Input assembly data too short") ∧
    parse_input_assembly
        [0, 0, 0x80, 0x3F, 0, 0, 0, 0x40, 0, 0, 0x40, 0x40, 0, 0, 0x80, 0x40] =
      .ok ⟨0x3F800000, 0x40000000, 0x40400000, 0x40800000⟩ :=
  ⟨(parse_input_assembly_correct _).1 (by decide),
   ((parse_input_assembly_correct _).2 (by decide)).1⟩

/-- Claim C1 counterexample: for the length-4 response `[0x8E, 0x00, 0x05,
0x01]` to a GetAttributeSingle (service 0x0E) request — first byte equal to
`0x0E | 0x80`, general status 5, additional-status word count 1 but no
additional-status bytes present — the source does not fail with a `CIPError`
carrying the status and words as the claim states: `struct.unpack` on the
truncated slice `resp[4:6]` raises an uncaught `struct.error`, which is not
of the `CIPError` class. -/
theorem cip_truncated_status_counterexample :
    parseCIPResponse 0x0E [0x8E, 0x00, 0x05, 0x01] = .error .structUnpackError ∧
    Err.pyClass .structUnpackError ≠ PyClass.cipErrorClass := by
  exact ⟨rfl, by decide⟩

/-- Claim C1 (amended): for a response of length at least 4 whose first byte
is `service | 0x80`, with `k = resp[3]`: if the general status `resp[2]` is
non-zero and the response holds at least `4 + 2k` bytes, the operation fails
with a `CIPError` carrying the status and the `k` little-endian words from
`resp[4 .. 4+2k)`, discarding trailing data; if `resp[2] = 0` it returns
`resp[4+2k ..]`.  (The unrestricted error case of the claim is false: with fewer
than `4 + 2k` bytes and `k ≥ 1` the code instead raises `struct.error`.) -/
theorem cip_response_decode_amended (service : Nat) (resp : List Nat)
    (hlen : 4 ≤ resp.length) (hsvc : resp.getD 0 0 = service ||| 0x80) :
    (resp.getD 2 0 ≠ 0 → 4 + resp.getD 3 0 * 2 ≤ resp.length →
      parseCIPResponse service resp =
        .error (.cipStatus (resp.getD 2 0)
          (leWords ((resp.drop 4).take (resp.getD 3 0 * 2))))) ∧
    (resp.getD 2 0 = 0 →
      parseCIPResponse service resp = .ok (resp.drop (4 + resp.getD 3 0 * 2))) := by
  have hnl : ¬ resp.length < 4 := by omega
  have hsvc2 : ¬ resp.getD 0 0 ≠ (service ||| 0x80) := fun hne => hne hsvc
  constructor
  · intro hg hk
    have hgood : ((resp.drop 4).take (resp.getD 3 0 * 2)).length =
        resp.getD 3 0 * 2 := by
      simp only [List.length_take, List.length_drop]
      omega
    simp only [parseCIPResponse]
    split_ifs with h1
    · rfl
    · have hz : resp.getD 3 0 = 0 := by omega
      rw [hz]
      rfl
  · intro hg
    simp only [parseCIPResponse]
    split_ifs with h1 h2 h3 <;> first | rfl | exact absurd hg h1

theorem cip_response_decode_amended_witness :
    parseCIPResponse 0x0E [0x8E, 0, 5, 0] = .error (.cipStatus 5 []) ∧
    parseCIPResponse 0x0E [0x8E, 0, 0, 0, 1, 0] = .ok [1, 0] :=
  ⟨(cip_response_decode_amended 0x0E [0x8E, 0, 5, 0]
      (by decide) (by decide)).1 (by decide) (by decide),
   (cip_response_decode_amended 0x0E [0x8E, 0, 0, 0, 1, 0]
      (by decide) (by decide)).2 (by decide)⟩

/-- Claim C3 counterexample: the response `[0x10, 0x00, 0x00, 0x00]` to a
GetAttributeSingle (service 0x0E) request has a mismatched service byte, and
the source raises `CIPError("Unexpected CIP service in response: 0x10")` —
an exception of the `CIPError` class, not a `ProtocolViolation` distinct
from `CIPError` (no such class exists in the source). -/
theorem service_mismatch_class_counterexample :
    parseCIPResponse 0x0E [0x10, 0x00, 0x00, 0x00] =
      .error (.cipUnexpectedService 0x10) ∧
    Err.pyClass (.cipUnexpectedService 0x10) = PyClass.cipErrorClass := by
  exact ⟨rfl, by decide⟩

/-- Claim C3 (amended): a response of length at least 4 whose first byte
differs from `service | 0x80` always fails, with the service-mismatch
`CIPError` — an exception of the same Python class `CIPError` as a
general-status error (the source has no separate ProtocolViolation class),
though a different exception value from every status-carrying `CIPError`. -/
theorem service_mismatch_amended (service : Nat) (resp : List Nat)
    (hlen : 4 ≤ resp.length) (hsvc : resp.getD 0 0 ≠ service ||| 0x80) :
    parseCIPResponse service resp =
      .error (.cipUnexpectedService (resp.getD 0 0)) ∧
    Err.pyClass (.cipUnexpectedService (resp.getD 0 0)) = PyClass.cipErrorClass ∧
    ∀ st add, Err.cipUnexpectedService (resp.getD 0 0) ≠ .cipStatus st add := by
  have hnl : ¬ resp.length < 4 := by omega
  refine ⟨?_, rfl, ?_⟩
  · simp only [parseCIPResponse]
    rw [if_neg hnl, if_pos hsvc]
  · intro st add
    simp

theorem service_mismatch_amended_witness :
    parseCIPResponse 0x0E [0x10, 0, 0, 0] =
      .error (.cipUnexpectedService 0x10) ∧
    Err.pyClass (.cipUnexpectedService 0x10) = PyClass.cipErrorClass ∧
    ∀ st add, Err.cipUnexpectedService 0x10 ≠ .cipStatus st add :=
  service_mismatch_amended 0x0E [0x10, 0, 0, 0] (by decide) (by decide)

/-- Claim C2: the SendRRData CPF round trip fails for the empty CIP payload,
a code bug.  Wrapping `P = []` produces a CPF whose 0x00B2 unconnected-data
item is present with an empty payload, yet `send_rr_data` raises
`EnipError("No CIP reply item in SendRRData response")`, because
`if not cip_reply` tests Python falsiness of the accumulated bytes and an
empty item payload is falsy exactly like the "no item found" sentinel.
A nonempty payload round-trips as the claim states, and a response with no
0x00B2 item fails with the same "no CIP reply item" error. -/
theorem sendRRData_empty_payload_bug :
    ((sendRRDataPayload []).bind (parseSendRRData 0) =
       .error .noCIPReplyItem) ∧
    ((sendRRDataPayload [0x8E, 0, 0, 0]).bind (parseSendRRData 0) =
       .ok [0x8E, 0, 0, 0]) ∧
    parseSendRRData 0 [0, 0, 0, 0, 0, 0, 1, 0, 0, 0, 0, 0] =
      .error .noCIPReplyItem := by
  exact ⟨rfl, rfl, rfl⟩

/-- Claim C5 counterexample: starting `Unregistered` (handle 0, no socket),
`connect()` whose RegisterSession exchange returns encapsulation status 1
fails — but leaves the socket open (`self.sock` still set) with handle 0,
contradicting "no socket is held" / "handle and socket are always set and
cleared together": `connect` stores the socket before `_register_session()`
and cleans nothing up when registration raises. -/
theorem connect_register_failure_counterexample :
    (connectT ⟨0, false⟩ (.ok ⟨0x65, 1, 0, [0, 0, 0, 0, 0, 0, 0, 0], 0, []⟩)).state =
      ⟨0, true⟩ ∧
    (connectT ⟨0, false⟩ (.ok ⟨0x65, 1, 0, [0, 0, 0, 0, 0, 0, 0, 0], 0, []⟩)).err =
      some (.registerFailed 1) := ⟨rfl, rfl⟩

/-- Claim C5 (amended): when `connect()` from the `Unregistered` state opens
the socket but the RegisterSession exchange fails (non-zero encapsulation
status, or response payload shorter than 4 bytes), it fails with a
transport error (`EnipError` class) and leaves the session handle 0 — but
the socket stays open; it is only released by a later `close()`. -/
theorem connect_register_failure_amended (resp : EnipResponse)
    (hfail : resp.status ≠ 0 ∨ resp.data.length < 4) :
    (connectT ⟨0, false⟩ (.ok resp)).state.session_handle = 0 ∧
    (connectT ⟨0, false⟩ (.ok resp)).state.sockOpen = true ∧
    ∃ e, (connectT ⟨0, false⟩ (.ok resp)).err = some e ∧
      e.pyClass = .enipErrorClass := by
  by_cases hs : resp.status = 0
  · have hd : resp.data.length < 4 := by
      rcases hfail with h | h
      · exact absurd hs h
      · exact h
    refine ⟨?_, ?_, .registerRespTooShort, ?_, rfl⟩ <;>
      simp [connectT, hs, hd]
  · refine ⟨?_, ?_, .registerFailed resp.status, ?_, rfl⟩ <;>
      simp [connectT, hs]

theorem connect_register_failure_amended_witness :
    (connectT ⟨0, false⟩
        (.ok ⟨0x65, 1, 0, [0, 0, 0, 0, 0, 0, 0, 0], 0, []⟩)).state.session_handle = 0 ∧
    (connectT ⟨0, false⟩
        (.ok ⟨0x65, 1, 0, [0, 0, 0, 0, 0, 0, 0, 0], 0, []⟩)).state.sockOpen = true ∧
    ∃ e, (connectT ⟨0, false⟩
        (.ok ⟨0x65, 1, 0, [0, 0, 0, 0, 0, 0, 0, 0], 0, []⟩)).err = some e ∧
      e.pyClass = .enipErrorClass :=
  connect_register_failure_amended ⟨0x65, 1, 0, [0, 0, 0, 0, 0, 0, 0, 0], 0, []⟩
    (Or.inl (by decide))

/-- Claim C6 counterexample: `close()` on a registered session (handle 5,
socket open) whose UnregisterSession exchange raises a transport error does
clean up, but the error propagates to the caller (`try`/`finally` re-raises
after the `finally` block), so it is not swallowed as the claim states. -/
theorem close_error_propagates_counterexample :
    (closeT ⟨5, true⟩ (.error .socketClosed)).err = some .socketClosed ∧
    (closeT ⟨5, true⟩ (.error .socketClosed)).state = ⟨0, false⟩ := ⟨rfl, rfl⟩

/-- Claim C6 (amended): `close()` with a socket held always closes the socket
and resets the handle to 0, whatever the unregister exchange does; when the
session is registered (non-zero handle) it sends one UnregisterSession frame,
and a transport error raised during that exchange propagates to the caller
after the cleanup instead of being swallowed. -/
theorem close_cleanup_amended (st : EnipState) (exch : Except Err EnipResponse)
    (hsock : st.sockOpen = true) :
    (closeT st exch).state = ⟨0, false⟩ ∧
    (closeT st exch).err = (if st.session_handle ≠ 0 then
        (match exch with | .error e => some e | .ok _ => none) else none) ∧
    (closeT st exch).sent =
      (if st.session_handle ≠ 0 then [(0x66, [])] else []) := by
  by_cases hh : st.session_handle = 0 <;> cases exch <;>
    simp [closeT, hh, hsock]

theorem close_cleanup_amended_witness :
    (closeT ⟨5, true⟩ (.error .socketClosed)).state = ⟨0, false⟩ ∧
    (closeT ⟨5, true⟩ (.error .socketClosed)).err = (if (5 : Nat) ≠ 0 then
        (match (.error .socketClosed : Except Err EnipResponse) with
         | .error e => some e | .ok _ => none) else none) ∧
    (closeT ⟨5, true⟩ (.error .socketClosed)).sent =
      (if (5 : Nat) ≠ 0 then [(0x66, [])] else []) :=
  close_cleanup_amended ⟨5, true⟩ (.error .socketClosed) rfl

/-- Claim C7: session idempotence.  A `connect()` while a socket is held
(in particular while `Registered`) performs no RegisterSession exchange,
sends no frame and leaves the state unchanged with no error; a `close()`
while `Unregistered` (handle 0, no socket) performs no I/O, raises nothing
and leaves the state unchanged, so the handle stays 0. -/
theorem connect_close_idempotent (st : EnipState)
    (exch exch2 : Except Err EnipResponse) :
    (st.session_handle ≠ 0 → st.sockOpen = true →
      connectT st exch = ⟨st, none, []⟩) ∧
    (st.session_handle = 0 → st.sockOpen = false →
      closeT st exch2 = ⟨st, none, []⟩ ∧ st.session_handle = 0) := by
  constructor
  · intro _ hs
    simp [connectT, hs]
  · intro hh hs
    refine ⟨?_, hh⟩
    simp [closeT, hh, hs]

theorem connect_close_idempotent_witness :
    connectT ⟨7, true⟩ (.error .socketClosed) = ⟨⟨7, true⟩, none, []⟩ ∧
    (closeT ⟨0, false⟩ (.error .socketClosed) = ⟨⟨0, false⟩, none, []⟩ ∧
      (7 : Nat) ≠ 0 → True) ∧
    closeT ⟨0, false⟩ (.error .socketClosed) = ⟨⟨0, false⟩, none, []⟩ :=
  ⟨(connect_close_idempotent ⟨7, true⟩ (.error .socketClosed)
      (.error .socketClosed)).1 (by decide) rfl,
   fun _ => trivial,
   ((connect_close_idempotent ⟨0, false⟩ (.error .socketClosed)
      (.error .socketClosed)).2 rfl rfl).1⟩

theorem recvLoop_spec (n : Nat) (buf0 : List Nat) (chunks0 : List (List Nat)) :
    buf0.length ≤ n →
    (∀ b r, recvLoop n buf0 chunks0 = .ok (b, r) → b.length = n) ∧
    (∀ e, recvLoop n buf0 chunks0 = .error e → e = .socketClosed) := by
  induction buf0, chunks0 using recvLoop.induct n with
  | case1 buf hlt =>
    intro _
    have hr : recvLoop n buf [] = .error .socketClosed := by
      rw [recvLoop.eq_def]
      simp [hlt]
    constructor
    · intro b r h
      exact absurd (hr.symm.trans h) (by simp)
    · intro e h
      have h2 := hr.symm.trans h
      injection h2 with h2
      exact h2.symm
  | case2 buf hlt rest =>
    intro _
    have hr : recvLoop n buf ([] :: rest) = .error .socketClosed := by
      rw [recvLoop.eq_def]
      simp [hlt]
    constructor
    · intro b r h
      exact absurd (hr.symm.trans h) (by simp)
    · intro e h
      have h2 := hr.symm.trans h
      injection h2 with h2
      exact h2.symm
  | case3 buf hlt c rest hc k ih =>
    intro hle
    have hstep : recvLoop n buf (c :: rest) =
        recvLoop n (buf ++ c.take (min c.length (n - buf.length)))
          (if c.length ≤ min c.length (n - buf.length) then rest
           else c.drop (min c.length (n - buf.length)) :: rest) := by
      rw [recvLoop.eq_def]
      simp [hlt, hc]
    have hlen2 : (buf ++ c.take (min c.length (n - buf.length))).length ≤ n := by
      simp only [List.length_append, List.length_take]
      omega
    obtain ⟨ihok, iherr⟩ := ih hlen2
    constructor
    · intro b r h
      exact ihok b r (hstep.symm.trans h)
    · intro e h
      exact iherr e (hstep.symm.trans h)
  | case4 buf chunks hnlt =>
    intro hle
    have hr : recvLoop n buf chunks = .ok (buf, chunks) := by
      rw [recvLoop.eq_def]
      simp [hnlt]
    constructor
    · intro b r h
      have h2 := hr.symm.trans h
      injection h2 with h2
      injection h2 with hb hrest
      rw [← hb]
      omega
    · intro e h
      exact absurd (hr.symm.trans h) (by simp)

/-- Claim C8: for every requested count `n` and every incoming chunk stream,
the exact-receive loop of `_recv_exact` either returns a buffer of exactly
`n` bytes or fails with the transport error `EnipError("Socket closed while
receiving")` — never a shorter buffer; and in particular a peer that
delivers only 10 of the 24 expected encapsulation-header bytes before
closing makes the `_send_enip` receive path fail with that transport error
rather than return a truncated header. -/
theorem recv_exact_all_or_error :
    (∀ (n : Nat) (chunks : List (List Nat)) (b : List Nat)
        (r : List (List Nat)), recvExact n chunks = .ok (b, r) → b.length = n) ∧
    (∀ (n : Nat) (chunks : List (List Nat)) (e : Err),
        recvExact n chunks = .error e →
          e = .socketClosed ∧ e.pyClass = .enipErrorClass) ∧
    recvEnipResponse [[0, 1, 2, 3, 4, 5, 6, 7, 8, 9]] = .error .socketClosed := by
  refine ⟨?_, ?_, ?_⟩
  · intro n chunks b r h
    exact (recvLoop_spec n [] chunks (by simp)).1 b r h
  · intro n chunks e h
    have he := (recvLoop_spec n [] chunks (by simp)).2 e h
    subst he
    exact ⟨rfl, rfl⟩
  · have h10 : recvExact 24 [[0, 1, 2, 3, 4, 5, 6, 7, 8, 9]] =
        .error .socketClosed := by
      simp [recvExact, recvLoop.eq_def]
    simp [recvEnipResponse, h10, errorBind]

theorem recv_exact_all_or_error_witness :
    ([1, 2, 3, 4] : List Nat).length = 4 ∧
    (Err.socketClosed = .socketClosed ∧
      Err.pyClass .socketClosed = .enipErrorClass) := by
  constructor
  · apply recv_exact_all_or_error.1 4 [[1, 2], [3], [4]] [1, 2, 3, 4] []
    simp [recvExact, recvLoop.eq_def]
  · apply recv_exact_all_or_error.2.1 24 [[0, 1, 2, 3, 4, 5, 6, 7, 8, 9]]
    simp [recvExact, recvLoop.eq_def]
